import Mathlib

/-!
# BasicTilingRenderPolicy

A shallow embedding of `map/basic_tiling_render_policy.cpp`: the tile size
calculator `CalculateTileSize` and the frame / navigation state machine
(`BeginFrame`, `DrawFrame`, `EndFrame`, `StartNavigation`, `StopNavigation`
and the gesture hooks built on them).

Conventions of the embedding.

* `size_t` is a 64-bit unsigned integer: values are naturals below `2 ^ 64`
  and subtraction wraps around.
* The double arithmetic of the tile size calculator belongs to the platform
  (`Platform`): the value it computes for `ceil(log(double(x)) / log2)` is the
  field `ceilLog`, about which the definitions assume nothing. What a theorem
  needs of it is a hypothesis of that theorem (`DoublesAdequate`), stated
  against the exact `exactCeilLog2`.
* `static_cast<int>` of a double that does not fit an `int` has no value
  fixed by the language; the value a platform produces there is its
  field `ub`.
* Calls into collaborators (coverage generator, tile renderer, queued
  renderer, drawer, base `RenderPolicy`) are recorded, in program order, as
  a list of `Call`s returned next to the new policy state.
-/

namespace BasicTilingRenderPolicy

/-! ## Tile size calculator -/

/-- Number of values of `size_t`. -/
def SIZE_T_MOD : Nat := 2 ^ 64

/-- First natural number that does not fit a (32-bit, signed) `int`. -/
def INT_LIMIT : Nat := 2 ^ 31

/-- Subtraction `a - b` of two `size_t` values, wrapping around. -/
def subSizeT (a b : Nat) : Nat :=
  (a % SIZE_T_MOD + SIZE_T_MOD - b % SIZE_T_MOD) % SIZE_T_MOD

/-- What the calculator takes from the platform it runs on.

* `ceilLog x` is the value the platform computes, in doubles, for
  `ceil(log(double(x)) / log2)` at a `size_t` `x ≥ 1`. It need not be the
  exact `⌈log₂ x⌉`: with IEEE doubles the quotient at `x = 2 ^ 29` is
  `29.000000000000004` and the value is 30.
* `ub` is the `size_t` the platform yields for `static_cast<int>` of a double
  that does not fit an `int`. -/
structure Platform where
  ceilLog : Nat → Nat
  ub : Nat

/-- The value of `pow(2.0, ceil(log(double(x)) / log2))` for a `size_t` `x`:
two to the ceiling the platform computes (`pow(2.0, n)` at an integral `n`
is the exact power of two), and `0` at `x = 0`, where `log` is `-inf`. -/
def pow2CeilLog2 (P : Platform) (x : Nat) : Nat :=
  if x = 0 then 0 else 2 ^ P.ceilLog x

/-- The conversion `size_t(static_cast<int>(v))` of a non-negative double `v`
with an integral value: `v` itself when it fits an `int`; otherwise the
language fixes no value and the one of the platform, `ub`, is used. -/
def castIntToSizeT (P : Platform) (v : Nat) : Nat :=
  if v < INT_LIMIT then v else P.ub % SIZE_T_MOD

/-- Local `ceiledScreenSize` of `CalculateTileSize`. -/
def ceiledScreenSize (P : Platform) (maxScreenSize : Nat) : Nat :=
  castIntToSizeT P (pow2CeilLog2 P ((maxScreenSize + 1) % SIZE_T_MOD))

/-- Local `flooredScreenSize` of `CalculateTileSize`. -/
def flooredScreenSize (P : Platform) (maxScreenSize : Nat) : Nat :=
  ceiledScreenSize P maxScreenSize / 2

/-- Local `resScreenSize` of `CalculateTileSize` after the `if` / `else`. -/
def resScreenSize (P : Platform) (maxScreenSize : Nat) : Nat :=
  if maxScreenSize < 1024 then
    ceiledScreenSize P maxScreenSize
  else if subSizeT (ceiledScreenSize P maxScreenSize) maxScreenSize
      < subSizeT maxScreenSize (flooredScreenSize P maxScreenSize) then
    ceiledScreenSize P maxScreenSize
  else
    flooredScreenSize P maxScreenSize

/-- `BasicTilingRenderPolicy::CalculateTileSize(screenWidth, screenHeight)`. -/
def CalculateTileSize (P : Platform) (screenWidth screenHeight : Nat) : Nat :=
  let maxScreenSize := max screenWidth screenHeight
  min (max (resScreenSize P maxScreenSize / 2) 128) 1024

/-! ### Reference values for the calculator -/

/-- Search, from `k` upwards and in at most `fuel` steps, for the least
exponent `k` with `x ≤ 2 ^ k`. -/
def exactCeilLog2From : Nat → Nat → Nat → Nat
  | 0, _, k => k
  | fuel + 1, x, k => if x ≤ 2 ^ k then k else exactCeilLog2From fuel x (k + 1)

/-- The exact `⌈log₂ x⌉` for `x ≥ 1`, the least `k` with `x ≤ 2 ^ k`. This is
the mathematical value, not the one the code computes in doubles. -/
def exactCeilLog2 (x : Nat) : Nat := exactCeilLog2From x x 0

/-- What the theorems on the value of the tile size ask of the doubles of the
platform, for `1 ≤ x ≤ 2 ^ 30`:

* the computed ceiling is the exact one, except that at an exact power of
  two, where the quotient of the two rounded logarithms is an integer up to
  rounding, it may be one more;
* at `2 ^ 8`, `2 ^ 9`, `2 ^ 10` and `2 ^ 30` it is the exact one. -/
def DoublesAdequate (ceilLog : Nat → Nat) : Prop :=
  (∀ x, 1 ≤ x → x ≤ 2 ^ 30 →
    ceilLog x = exactCeilLog2 x ∨
      (x = 2 ^ exactCeilLog2 x ∧ ceilLog x = exactCeilLog2 x + 1)) ∧
  ceilLog (2 ^ 8) = 8 ∧ ceilLog (2 ^ 9) = 9 ∧ ceilLog (2 ^ 10) = 10 ∧
  ceilLog (2 ^ 30) = 30

/-- The platform of the specification, `2 ^ ceil(log2(maxDim + 1))` with the
exact logarithm. -/
def exactPlatform : Platform :=
  { ceilLog := exactCeilLog2, ub := 0 }

/-- The ceiling computed with IEEE-754 binary64 doubles and a correctly
rounded `log`, for `1 ≤ x ≤ 2 ^ 31`: the exact one, except at `2 ^ 29` and
`2 ^ 31`, where the quotient rounds to just above 29 and 31. For larger `x`
the value is only used through the out-of-range cast. -/
def ieeeCeilLog (x : Nat) : Nat :=
  if x = 2 ^ exactCeilLog2 x ∧ (exactCeilLog2 x = 29 ∨ exactCeilLog2 x = 31) then
    exactCeilLog2 x + 1
  else exactCeilLog2 x

/-- A platform for concrete runs: IEEE doubles, and the out-of-range cast of
x86-64, which yields `INT_MIN`, that is `2 ^ 64 - 2 ^ 31` as a `size_t`. -/
def ieeePlatform : Platform :=
  { ceilLog := ieeeCeilLog, ub := 2 ^ 64 - 2 ^ 31 }

/-- The `clamp(x, lo, hi)` of the specification. -/
def clamp (x lo hi : Nat) : Nat := min (max x lo) hi

/-- The closed form of the tile size as a function of the larger screen
dimension. -/
def tileSizeOfMaxDim (maxDim : Nat) : Nat :=
  if maxDim ≤ 255 then 128
  else if maxDim ≤ 511 then 256
  else if maxDim ≤ 1536 then 512
  else 1024

/-! ## Frame lifecycle and navigation state machine

The types of the view snapshot (`ScreenBase`), of rectangles (`m2::RectD`)
and of the `double` arguments of the rotation hooks are parameters
`Screen`, `Rect` and `Dbl`. -/

/-- A call made on a collaborator. A run of the policy yields the list of
its calls in program order. -/
inductive Call (Screen Rect Dbl : Type) where
  /-- The call `m_QueuedRenderer->BeginFrame()`. -/
  | QueuedBeginFrame : Call Screen Rect Dbl
  /-- The call `m_QueuedRenderer->DrawFrame()`. -/
  | QueuedDrawFrame : Call Screen Rect Dbl
  /-- The call `m_QueuedRenderer->EndFrame()`. -/
  | QueuedEndFrame : Call Screen Rect Dbl
  /-- The call `m_resourceManager->updatePoolState()`. -/
  | UpdatePoolState : Call Screen Rect Dbl
  /-- The call `m_CoverageGenerator->InvalidateTiles(rect, startScale)`. -/
  | InvalidateTiles (rect : Rect) (startScale : Int) : Call Screen Rect Dbl
  /-- The call `m_CoverageGenerator->AddCoverScreenTask(s, doForce)`. -/
  | AddCoverScreenTask (s : Screen) (doForce : Bool) : Call Screen Rect Dbl
  /-- The call `pDrawer->beginFrame()`. -/
  | DrawerBeginFrame : Call Screen Rect Dbl
  /-- The call `pDrawer->screen()->clear(m_bgColor)`. -/
  | ScreenClear : Call Screen Rect Dbl
  /-- The call `m_CoverageGenerator->Mutex().Lock()`. -/
  | MutexLock : Call Screen Rect Dbl
  /-- The call `curCvg->Draw(pDrawer->screen().get(), s)`. -/
  | CoverageDraw (s : Screen) : Call Screen Rect Dbl
  /-- The call `pDrawer->endFrame()`. -/
  | DrawerEndFrame : Call Screen Rect Dbl
  /-- The call `m_CoverageGenerator->Mutex().Unlock()`. -/
  | MutexUnlock : Call Screen Rect Dbl
  /-- The call `m_TileRenderer->SetIsPaused(flag)`. -/
  | SetIsPaused (flag : Bool) : Call Screen Rect Dbl
  /-- The call `m_TileRenderer->CancelCommands()`. -/
  | CancelCommands : Call Screen Rect Dbl
  /-- The call `RenderPolicy::StopScale()`. -/
  | BaseStopScale : Call Screen Rect Dbl
  /-- The call `RenderPolicy::StopDrag()`. -/
  | BaseStopDrag : Call Screen Rect Dbl
  /-- The call `RenderPolicy::StopRotate(a, timeInSec)`. -/
  | BaseStopRotate (a timeInSec : Dbl) : Call Screen Rect Dbl
  deriving DecidableEq, Repr

/-- Modelled from the spec: the part of the base `RenderPolicy` (declared
outside this file) that the policy goes through: the one-shot force-update
flag behind `DoForceUpdate()` / `SetForceUpdate(flag)` and the rectangle
behind `GetInvalidRect()`. -/
structure RenderPolicy (Rect : Type) where
  m_doForceUpdate : Bool
  m_invalidRect : Rect
  deriving DecidableEq, Repr

/-- The functions used by the policy and defined outside this file. The base
hooks `RenderPolicy::Stop*` may change the base state in any way. -/
structure Externals (Screen Rect Dbl : Type) where
  /-- The query `ScreenBase::GlobalRect()`. -/
  GlobalRect : Screen → Rect
  /-- The test `a.IsIntersect(b)` on rectangles. -/
  IsIntersect : Rect → Rect → Bool
  /-- The constant `scales::GetUpperWorldScale()`. -/
  GetUpperWorldScale : Int
  /-- Effect of `RenderPolicy::StopScale()` on the base state. -/
  StopScale : RenderPolicy Rect → RenderPolicy Rect
  /-- Effect of `RenderPolicy::StopDrag()` on the base state. -/
  StopDrag : RenderPolicy Rect → RenderPolicy Rect
  /-- Effect of `RenderPolicy::StopRotate(a, timeInSec)` on the base state. -/
  StopRotate : Dbl → Dbl → RenderPolicy Rect → RenderPolicy Rect

/-- What `DrawFrame` reads from `m_CoverageGenerator->CurrentCoverage()`
while the mutex is held. -/
structure ScreenCoverage where
  GetDrawScale : Int
  IsEmptyDrawingCoverage : Bool
  IsPartialCoverage : Bool
  IsEmptyModelAtCoverageCenter : Bool
  GetCountryNameAtCoverageCenter : String
  deriving DecidableEq, Repr

/-- The state of a `BasicTilingRenderPolicy`. `hasQueuedRenderer` says
whether `m_QueuedRenderer` is set. -/
structure Policy (Rect : Type) where
  base : RenderPolicy Rect
  hasQueuedRenderer : Bool
  m_TileSize : Nat
  m_DrawScale : Int
  m_IsEmptyModel : Bool
  m_CountryName : String
  m_DoRecreateCoverage : Bool
  m_IsNavigating : Bool
  deriving DecidableEq, Repr

section StateMachine

variable {Screen Rect Dbl : Type}

/-- The constructor `BasicTilingRenderPolicy(p, doSupportRotation,
doUseQueuedRenderer)`; `base` is the state the base constructor leaves. -/
def construct (P : Platform) (screenWidth screenHeight : Nat) (doUseQueuedRenderer : Bool)
    (base : RenderPolicy Rect) : Policy Rect :=
  { base := base
    hasQueuedRenderer := doUseQueuedRenderer
    m_TileSize := CalculateTileSize P screenWidth screenHeight
    m_DrawScale := 0
    m_IsEmptyModel := false
    m_CountryName := ""
    m_DoRecreateCoverage := false
    m_IsNavigating := false }

/-- `BasicTilingRenderPolicy::BeginFrame`. -/
def BeginFrame (p : Policy Rect) : Policy Rect × List (Call Screen Rect Dbl) :=
  (p, if p.hasQueuedRenderer then [Call.QueuedBeginFrame] else [])

/-- `BasicTilingRenderPolicy::DrawFrame(e, s)`, with `curCvg` the current
coverage found once the mutex is locked. -/
def DrawFrame (X : Externals Screen Rect Dbl) (p : Policy Rect) (s : Screen)
    (curCvg : ScreenCoverage) : Policy Rect × List (Call Screen Rect Dbl) :=
  let queued : List (Call Screen Rect Dbl) :=
    if p.hasQueuedRenderer then [Call.QueuedDrawFrame, Call.UpdatePoolState] else []
  let doForceUpdate := p.base.m_doForceUpdate
  let doIntersectInvalidRect := X.IsIntersect p.base.m_invalidRect (X.GlobalRect s)
  let invalidate : List (Call Screen Rect Dbl) :=
    if doForceUpdate then
      [Call.InvalidateTiles p.base.m_invalidRect (X.GetUpperWorldScale + 1)]
    else []
  let cover : List (Call Screen Rect Dbl) :=
    if !p.m_IsNavigating then
      [Call.AddCoverScreenTask s
        (p.m_DoRecreateCoverage || (doForceUpdate && doIntersectInvalidRect))]
    else []
  let p1 : Policy Rect :=
    { p with base := { p.base with m_doForceUpdate := false }, m_DoRecreateCoverage := false }
  let p2 : Policy Rect := { p1 with m_DrawScale := curCvg.GetDrawScale }
  let p3 : Policy Rect :=
    if !curCvg.IsEmptyDrawingCoverage || !curCvg.IsPartialCoverage then
      let p4 : Policy Rect :=
        { p2 with m_IsEmptyModel :=
            curCvg.IsEmptyDrawingCoverage && curCvg.IsEmptyModelAtCoverageCenter }
      if p4.m_IsEmptyModel then
        { p4 with m_CountryName := curCvg.GetCountryNameAtCoverageCenter }
      else p4
    else p2
  (p3, queued ++ invalidate ++ cover ++
    [Call.DrawerBeginFrame, Call.ScreenClear, Call.MutexLock, Call.CoverageDraw s,
      Call.DrawerEndFrame])

/-- `BasicTilingRenderPolicy::EndFrame`. -/
def EndFrame (p : Policy Rect) : Policy Rect × List (Call Screen Rect Dbl) :=
  (p, [Call.MutexUnlock] ++ if p.hasQueuedRenderer then [Call.QueuedEndFrame] else [])

/-- `BasicTilingRenderPolicy::StartNavigation`. -/
def StartNavigation (p : Policy Rect) : Policy Rect × List (Call Screen Rect Dbl) :=
  ({ p with m_IsNavigating := true }, [Call.SetIsPaused true, Call.CancelCommands])

/-- `BasicTilingRenderPolicy::StopNavigation`. -/
def StopNavigation (p : Policy Rect) : Policy Rect × List (Call Screen Rect Dbl) :=
  ({ p with m_IsNavigating := false, m_DoRecreateCoverage := true }, [Call.SetIsPaused false])

/-- `BasicTilingRenderPolicy::StartScale`. -/
def StartScale (p : Policy Rect) : Policy Rect × List (Call Screen Rect Dbl) :=
  StartNavigation p

/-- `BasicTilingRenderPolicy::StopScale`. -/
def StopScale (X : Externals Screen Rect Dbl) (p : Policy Rect) :
    Policy Rect × List (Call Screen Rect Dbl) :=
  let r : Policy Rect × List (Call Screen Rect Dbl) := StopNavigation p
  ({ r.1 with base := X.StopScale r.1.base }, r.2 ++ [Call.BaseStopScale])

/-- `BasicTilingRenderPolicy::StartDrag`. -/
def StartDrag (p : Policy Rect) : Policy Rect × List (Call Screen Rect Dbl) :=
  StartNavigation p

/-- `BasicTilingRenderPolicy::StopDrag`. -/
def StopDrag (X : Externals Screen Rect Dbl) (p : Policy Rect) :
    Policy Rect × List (Call Screen Rect Dbl) :=
  let r : Policy Rect × List (Call Screen Rect Dbl) := StopNavigation p
  ({ r.1 with base := X.StopDrag r.1.base }, r.2 ++ [Call.BaseStopDrag])

/-- `BasicTilingRenderPolicy::StartRotate(a, timeInSec)`. -/
def StartRotate (p : Policy Rect) (_a _timeInSec : Dbl) :
    Policy Rect × List (Call Screen Rect Dbl) :=
  StartNavigation p

/-- `BasicTilingRenderPolicy::StopRotate(a, timeInSec)`. -/
def StopRotate (X : Externals Screen Rect Dbl) (p : Policy Rect) (a timeInSec : Dbl) :
    Policy Rect × List (Call Screen Rect Dbl) :=
  let r : Policy Rect × List (Call Screen Rect Dbl) := StopNavigation p
  ({ r.1 with base := X.StopRotate a timeInSec r.1.base },
    r.2 ++ [Call.BaseStopRotate a timeInSec])

/-- `BasicTilingRenderPolicy::GetDrawScale(s)`. -/
def GetDrawScale (p : Policy Rect) (_s : Screen) : Int := p.m_DrawScale

/-- `BasicTilingRenderPolicy::IsEmptyModel()`. -/
def IsEmptyModel (p : Policy Rect) : Bool := p.m_IsEmptyModel

/-- `BasicTilingRenderPolicy::GetCountryName()`. -/
def GetCountryName (p : Policy Rect) : String := p.m_CountryName

/-- `BasicTilingRenderPolicy::TileSize()`. -/
def TileSize (p : Policy Rect) : Nat := p.m_TileSize

/-- Modelled from the spec: `RenderPolicy::SetForceUpdate(flag)` of the base
class, the external setter of the one-shot force-update flag. -/
def SetForceUpdate (p : Policy Rect) (flag : Bool) : Policy Rect :=
  { p with base := { p.base with m_doForceUpdate := flag } }

/-- Modelled from the spec: the base class changing the rectangle behind
`GetInvalidRect()`. -/
def SetInvalidRect (p : Policy Rect) (rect : Rect) : Policy Rect :=
  { p with base := { p.base with m_invalidRect := rect } }

/-- What the single caller thread can do with a policy. -/
inductive Event (Screen Rect Dbl : Type) where
  | BeginFrame : Event Screen Rect Dbl
  | DrawFrame (s : Screen) (curCvg : ScreenCoverage) : Event Screen Rect Dbl
  | EndFrame : Event Screen Rect Dbl
  | StartScale : Event Screen Rect Dbl
  | StopScale : Event Screen Rect Dbl
  | StartDrag : Event Screen Rect Dbl
  | StopDrag : Event Screen Rect Dbl
  | StartRotate (a timeInSec : Dbl) : Event Screen Rect Dbl
  | StopRotate (a timeInSec : Dbl) : Event Screen Rect Dbl
  | SetForceUpdate (flag : Bool) : Event Screen Rect Dbl
  | SetInvalidRect (rect : Rect) : Event Screen Rect Dbl
  deriving DecidableEq, Repr

/-- One event: the new state and the calls made. -/
def step (X : Externals Screen Rect Dbl) (p : Policy Rect) :
    Event Screen Rect Dbl → Policy Rect × List (Call Screen Rect Dbl)
  | Event.BeginFrame => BeginFrame p
  | Event.DrawFrame s curCvg => DrawFrame X p s curCvg
  | Event.EndFrame => EndFrame p
  | Event.StartScale => StartScale p
  | Event.StopScale => StopScale X p
  | Event.StartDrag => StartDrag p
  | Event.StopDrag => StopDrag X p
  | Event.StartRotate a t => StartRotate p a t
  | Event.StopRotate a t => StopRotate X p a t
  | Event.SetForceUpdate flag => (SetForceUpdate p flag, [])
  | Event.SetInvalidRect rect => (SetInvalidRect p rect, [])

/-- A sequence of events: the final state and all calls made, in order. -/
def run (X : Externals Screen Rect Dbl) :
    Policy Rect → List (Event Screen Rect Dbl) → Policy Rect × List (Call Screen Rect Dbl)
  | p, [] => (p, [])
  | p, ev :: evs => ((run X (step X p ev).1 evs).1, (step X p ev).2 ++ (run X (step X p ev).1 evs).2)

/-- The cover-screen tasks among a list of calls: view and recreate flag. -/
def coverTasks : List (Call Screen Rect Dbl) → List (Screen × Bool)
  | [] => []
  | Call.AddCoverScreenTask s doForce :: cs => (s, doForce) :: coverTasks cs
  | _ :: cs => coverTasks cs

/-- Locks minus unlocks of the coverage mutex among a list of calls. -/
def lockBalance : List (Call Screen Rect Dbl) → Int
  | [] => 0
  | Call.MutexLock :: cs => 1 + lockBalance cs
  | Call.MutexUnlock :: cs => -1 + lockBalance cs
  | _ :: cs => lockBalance cs

/-- Whether an event is one of `StartDrag`, `StartScale`, `StartRotate`. -/
def Event.isStart : Event Screen Rect Dbl → Bool
  | Event.StartScale => true
  | Event.StartDrag => true
  | Event.StartRotate _ _ => true
  | _ => false

/-- Whether an event is one of `StopDrag`, `StopScale`, `StopRotate`. -/
def Event.isStop : Event Screen Rect Dbl → Bool
  | Event.StopScale => true
  | Event.StopDrag => true
  | Event.StopRotate _ _ => true
  | _ => false

/-- Whether, after `evs` from a state with navigation flag `nav`, the last
navigation event was a `Start*`, with no `Stop*` after it. -/
def navigatingAfter (nav : Bool) : List (Event Screen Rect Dbl) → Bool
  | [] => nav
  | ev :: evs =>
    navigatingAfter (if ev.isStart then true else if ev.isStop then false else nav) evs

/-- Number of `DrawFrame` events minus number of `EndFrame` events. -/
def drawsMinusEnds : List (Event Screen Rect Dbl) → Int
  | [] => 0
  | Event.DrawFrame _ _ :: evs => 1 + drawsMinusEnds evs
  | Event.EndFrame :: evs => -1 + drawsMinusEnds evs
  | _ :: evs => drawsMinusEnds evs

end StateMachine

/-- A one-dimensional stand-in for the externals, for concrete runs: views
and rectangles are intervals `(lo, hi)` of naturals. -/
def intervalExternals : Externals (Nat × Nat) (Nat × Nat) Nat :=
  { GlobalRect := fun s => s
    IsIntersect := fun a b => !(a.2 < b.1 || b.2 < a.1)
    GetUpperWorldScale := 9
    StopScale := fun b => b
    StopDrag := fun b => b
    StopRotate := fun _ _ b => b }

/-- A freshly constructed policy for a 2000 x 2000 screen, without queued
renderer, over `intervalExternals`. -/
def freshPolicy : Policy (Nat × Nat) :=
  construct ieeePlatform 2000 2000 false { m_doForceUpdate := false, m_invalidRect := (0, 0) }

/-- A coverage snapshot for concrete runs. -/
def sampleCoverage : ScreenCoverage :=
  { GetDrawScale := 12
    IsEmptyDrawingCoverage := true
    IsPartialCoverage := false
    IsEmptyModelAtCoverageCenter := true
    GetCountryNameAtCoverageCenter := "Belarus" }

/-! ### Lemmas on the calculator -/

/-- The exact real value `⌈log (n + 1) / log 2⌉` is `Nat.clog 2 (n + 1)`. -/
theorem ceil_log_two_eq_clog (n : Nat) :
    ⌈Real.log ((n : ℝ) + 1) / Real.log 2⌉ = (Nat.clog 2 (n + 1) : ℤ) := by
  have h := Real.ceil_logb_natCast (b := 2) (r := ((n + 1 : ℕ) : ℝ)) (by positivity)
  rw [Int.clog_natCast] at h
  have e : Real.logb ((2 : ℕ) : ℝ) (((n + 1 : ℕ) : ℝ)) = Real.log ((n : ℝ) + 1) / Real.log 2 := by
    simp [Real.logb]
  rw [e] at h
  exact h

theorem exactCeilLog2From_spec (fuel x k : Nat) (hinv : k = 0 ∨ 2 ^ (k - 1) < x)
    (hfuel : x ≤ 2 ^ (k + fuel)) :
    x ≤ 2 ^ exactCeilLog2From fuel x k ∧
      (exactCeilLog2From fuel x k = 0 ∨ 2 ^ (exactCeilLog2From fuel x k - 1) < x) := by
  induction fuel generalizing k with
  | zero =>
    exact ⟨by simpa [exactCeilLog2From] using hfuel, by simpa [exactCeilLog2From] using hinv⟩
  | succ n ih =>
    unfold exactCeilLog2From
    by_cases hx : x ≤ 2 ^ k
    · rw [if_pos hx]
      exact ⟨hx, hinv⟩
    · rw [if_neg hx]
      apply ih
      · right
        simpa using hx
      · have : k + 1 + n = k + (n + 1) := by omega
        rw [this]
        exact hfuel

/-- The search `exactCeilLog2` computes `Nat.clog 2`. -/
theorem exactCeilLog2_eq_clog (x : Nat) : exactCeilLog2 x = Nat.clog 2 x := by
  obtain ⟨h1, h2⟩ := exactCeilLog2From_spec x x 0 (Or.inl rfl)
    (by simpa using (Nat.lt_two_pow x).le)
  unfold exactCeilLog2
  apply le_antisymm
  · rcases h2 with h0 | hlt
    · omega
    · have := (Nat.pow_lt_iff_lt_clog (b := 2) (by norm_num)).mp hlt
      omega
  · exact (Nat.le_pow_iff_clog_le (by norm_num)).mp h1

theorem clog_two_eq (n k : Nat) (h1 : 2 ^ k < n) (h2 : n ≤ 2 ^ (k + 1)) :
    Nat.clog 2 n = k + 1 := by
  apply le_antisymm
  · exact (Nat.le_pow_iff_clog_le (by norm_num)).mp h2
  · exact (Nat.pow_lt_iff_lt_clog (by norm_num)).mp h1

/-- The local `ceiledScreenSize` is always a `size_t`. -/
theorem ceiled_lt_mod (P : Platform) (m : Nat) : ceiledScreenSize P m < 2 ^ 64 := by
  unfold ceiledScreenSize castIntToSizeT INT_LIMIT SIZE_T_MOD
  split
  · omega
  · exact Nat.mod_lt _ (by norm_num)

/-- Where the doubles give the exact ceiling, `ceiledScreenSize` is the least
power of two above `m`. -/
theorem ceiled_of_exact (P : Platform) (m : Nat) (hm : m < 2 ^ 30)
    (hex : P.ceilLog (m + 1) = exactCeilLog2 (m + 1)) :
    ceiledScreenSize P m = 2 ^ Nat.clog 2 (m + 1) := by
  have h1 : (m + 1) % SIZE_T_MOD = m + 1 := by
    apply Nat.mod_eq_of_lt
    unfold SIZE_T_MOD
    omega
  have h2 : 2 ^ Nat.clog 2 (m + 1) ≤ 2 ^ 30 :=
    Nat.pow_le_pow_right (by norm_num)
      ((Nat.le_pow_iff_clog_le (by norm_num)).mp (by omega))
  unfold ceiledScreenSize castIntToSizeT pow2CeilLog2 INT_LIMIT
  rw [h1, hex, exactCeilLog2_eq_clog, if_neg (Nat.succ_ne_zero m), if_pos (by omega)]

/-- The bounds on an exact `ceiledScreenSize` that the comparison relies on. -/
theorem ceiled_bounds (P : Platform) (m : Nat) (hm : m < 2 ^ 30)
    (hex : P.ceilLog (m + 1) = exactCeilLog2 (m + 1)) :
    m < ceiledScreenSize P m ∧ ceiledScreenSize P m / 2 ≤ m ∧
      ceiledScreenSize P m ≤ 2 ^ 30 := by
  rw [ceiled_of_exact P m hm hex]
  have hle : m + 1 ≤ 2 ^ Nat.clog 2 (m + 1) := Nat.le_pow_clog (by norm_num) _
  refine ⟨by omega, ?_, ?_⟩
  · rcases Nat.eq_zero_or_pos m with h0 | hpos
    · subst h0
      simp
    · have hlt := Nat.pow_pred_clog_lt_self (b := 2) (by norm_num) (x := m + 1) (by omega)
      have hk : 0 < Nat.clog 2 (m + 1) := Nat.clog_pos (by norm_num) (by omega)
      obtain ⟨j, hj⟩ : ∃ j, Nat.clog 2 (m + 1) = j + 1 := ⟨_, (Nat.succ_pred_eq_of_pos hk).symm⟩
      rw [hj] at hlt ⊢
      simp only [Nat.pred_succ, Nat.pred_eq_sub_one, Nat.add_sub_cancel] at hlt
      rw [pow_succ]
      omega
  · exact Nat.pow_le_pow_right (by norm_num)
      ((Nat.le_pow_iff_clog_le (by norm_num)).mp (by omega))

/-- With an exact `ceiledScreenSize`, `resScreenSize` is the comparison on
plain naturals. -/
theorem res_of_exact (P : Platform) (m : Nat) (hm : m < 2 ^ 30)
    (hex : P.ceilLog (m + 1) = exactCeilLog2 (m + 1)) :
    resScreenSize P m =
      if m < 1024 ∨ ceiledScreenSize P m - m < m - ceiledScreenSize P m / 2 then
        ceiledScreenSize P m
      else ceiledScreenSize P m / 2 := by
  obtain ⟨h1, h2, h3⟩ := ceiled_bounds P m hm hex
  have e1 : subSizeT (ceiledScreenSize P m) m = ceiledScreenSize P m - m := by
    unfold subSizeT SIZE_T_MOD
    omega
  have e2 : subSizeT m (ceiledScreenSize P m / 2) = m - ceiledScreenSize P m / 2 := by
    unfold subSizeT SIZE_T_MOD
    omega
  unfold resScreenSize flooredScreenSize
  rw [e1, e2]
  by_cases hs : m < 1024
  · simp [hs]
  · by_cases hc : ceiledScreenSize P m - m < m - ceiledScreenSize P m / 2
    · simp [hs, hc]
    · simp [hs, hc]

/-- A power of two that is the least one above `m` is the exact
`ceiledScreenSize`. -/
theorem ceiled_unique (P : Platform) (m c k : Nat) (hm : m < 2 ^ 30)
    (hex : P.ceilLog (m + 1) = exactCeilLog2 (m + 1)) (hc : c = 2 ^ k) (hgt : m < c)
    (hleast : ∀ j, m < 2 ^ j → c ≤ 2 ^ j) : ceiledScreenSize P m = c := by
  rw [ceiled_of_exact P m hm hex]
  apply le_antisymm
  · rw [hc]
    exact Nat.pow_le_pow_right (by norm_num)
      ((Nat.le_pow_iff_clog_le (by norm_num)).mp (by omega))
  · apply hleast
    have := Nat.le_pow_clog (b := 2) (by norm_num) (m + 1)
    omega

theorem ceiled_of_range (P : Platform) (m k : Nat) (hm : m < 2 ^ 30)
    (hex : P.ceilLog (m + 1) = exactCeilLog2 (m + 1)) (h1 : 2 ^ k ≤ m)
    (h2 : m < 2 ^ (k + 1)) : ceiledScreenSize P m = 2 ^ (k + 1) := by
  rw [ceiled_of_exact P m hm hex, clog_two_eq (m + 1) k (by omega) (by omega)]

/-- The closed form where the doubles give the exact ceiling. -/
theorem tileSize_closed_exact (P : Platform) (w h : Nat) (hm : max w h < 2 ^ 30)
    (hex : P.ceilLog (max w h + 1) = exactCeilLog2 (max w h + 1)) :
    CalculateTileSize P w h = tileSizeOfMaxDim (max w h) := by
  unfold CalculateTileSize
  simp only []
  generalize max w h = m at hm hex ⊢
  rw [res_of_exact P m hm hex]
  unfold tileSizeOfMaxDim
  by_cases a1 : m < 256
  · have hc : ceiledScreenSize P m ≤ 256 := by
      rw [ceiled_of_exact P m hm hex]
      calc 2 ^ Nat.clog 2 (m + 1) ≤ 2 ^ 8 :=
            Nat.pow_le_pow_right (by norm_num)
              ((Nat.le_pow_iff_clog_le (by norm_num)).mp (by omega))
        _ = 256 := by norm_num
    have hlt : m < 1024 := by omega
    simp only [hlt, true_or, if_true]
    rw [if_pos (by omega)]
    omega
  · by_cases a2 : m < 512
    · have hc := ceiled_of_range P m 8 hm hex (by omega) (by omega)
      norm_num at hc
      have hlt : m < 1024 := by omega
      simp only [hlt, true_or, if_true, hc]
      rw [if_neg (by omega), if_pos (by omega)]
      norm_num
    · by_cases a3 : m < 1024
      · have hc := ceiled_of_range P m 9 hm hex (by omega) (by omega)
        norm_num at hc
        simp only [a3, true_or, if_true, hc]
        rw [if_neg (by omega), if_neg (by omega), if_pos (by omega)]
        norm_num
      · by_cases a4 : m < 2048
        · have hc := ceiled_of_range P m 10 hm hex (by omega) (by omega)
          norm_num at hc
          rw [hc]
          by_cases a5 : m ≤ 1536
          · rw [if_neg (by omega), if_neg (by omega), if_neg (by omega), if_pos a5]
            norm_num
          · rw [if_pos (by omega), if_neg (by omega), if_neg (by omega), if_neg a5]
            norm_num
        · have hc : 4096 ≤ ceiledScreenSize P m := by
            rw [ceiled_of_exact P m hm hex]
            calc 4096 = 2 ^ 12 := by norm_num
              _ ≤ 2 ^ Nat.clog 2 (m + 1) :=
                Nat.pow_le_pow_right (by norm_num)
                  ((Nat.pow_lt_iff_lt_clog (b := 2) (by norm_num) (y := 11)).mp (by omega))
          have h1 : 1024 ≤ ceiledScreenSize P m / 2 := by omega
          have h2 : 1024 ≤ ceiledScreenSize P m / 2 / 2 := by omega
          split_ifs <;> omega

/-- Where the doubles round the quotient up at `m + 1 = 2 ^ k`, `k ≤ 29`,
`ceiledScreenSize` is the next power of two, `2 * (m + 1)`. -/
theorem ceiled_of_overshoot (P : Platform) (m k : Nat) (hk : m + 1 = 2 ^ k) (hk29 : k ≤ 29)
    (hov : P.ceilLog (m + 1) = k + 1) : ceiledScreenSize P m = 2 * (m + 1) := by
  have hle : 2 ^ k ≤ 2 ^ 29 := Nat.pow_le_pow_right (by norm_num) hk29
  have h1 : (m + 1) % SIZE_T_MOD = m + 1 := by
    apply Nat.mod_eq_of_lt
    unfold SIZE_T_MOD
    omega
  have h2 : 2 ^ (k + 1) = 2 * (m + 1) := by
    rw [pow_succ, hk]
    omega
  unfold ceiledScreenSize castIntToSizeT pow2CeilLog2 INT_LIMIT
  rw [h1, hov, if_neg (Nat.succ_ne_zero m), h2, if_pos (by omega)]

/-- The closed form where the doubles round the quotient up at
`max w h + 1 = 2 ^ k`, for `k` other than 8, 9, 10 and 30. -/
theorem tileSize_closed_overshoot (P : Platform) (w h k : Nat)
    (hk : max w h + 1 = 2 ^ k) (hk29 : k ≤ 29) (hov : P.ceilLog (max w h + 1) = k + 1)
    (h8 : k ≠ 8) (h9 : k ≠ 9) (h10 : k ≠ 10) :
    CalculateTileSize P w h = tileSizeOfMaxDim (max w h) := by
  unfold CalculateTileSize
  simp only []
  generalize max w h = m at hk hov ⊢
  have hle : 2 ^ k ≤ 2 ^ 29 := Nat.pow_le_pow_right (by norm_num) hk29
  have hc := ceiled_of_overshoot P m k hk hk29 hov
  unfold resScreenSize flooredScreenSize tileSizeOfMaxDim
  rw [hc]
  by_cases hs : m < 1024
  · have hk7 : k ≤ 7 := by
      by_contra hgt
      have : 2 ^ 11 ≤ 2 ^ k := Nat.pow_le_pow_right (by norm_num) (by omega)
      omega
    have : 2 ^ k ≤ 2 ^ 7 := Nat.pow_le_pow_right (by norm_num) hk7
    rw [if_pos hs, if_pos (by omega)]
    omega
  · have hk11 : 2 ^ 11 ≤ 2 ^ k := by
      apply Nat.pow_le_pow_right (by norm_num)
      by_contra hlt
      have : 2 ^ k ≤ 2 ^ 10 := Nat.pow_le_pow_right (by norm_num) (by omega)
      omega
    have e1 : subSizeT (2 * (m + 1)) m = m + 2 := by
      unfold subSizeT SIZE_T_MOD
      omega
    have e2 : subSizeT m (2 * (m + 1) / 2) = 2 ^ 64 - 1 := by
      unfold subSizeT SIZE_T_MOD
      omega
    rw [if_neg hs, e1, e2, if_pos (by omega), if_neg (by omega), if_neg (by omega),
      if_neg (by omega)]
    omega

/-- The closed form of the tile size, on every platform with adequate
doubles. -/
theorem tileSize_closed (P : Platform) (w h : Nat) (hD : DoublesAdequate P.ceilLog)
    (hm : max w h < 2 ^ 30) : CalculateTileSize P w h = tileSizeOfMaxDim (max w h) := by
  obtain ⟨hacc, e8, e9, e10, e30⟩ := hD
  rcases hacc (max w h + 1) (by omega) (by omega) with hex | ⟨hpow, hov⟩
  · exact tileSize_closed_exact P w h hm hex
  · have hk30 : exactCeilLog2 (max w h + 1) ≤ 30 := by
      by_contra hgt
      have : 2 ^ 31 ≤ 2 ^ exactCeilLog2 (max w h + 1) :=
        Nat.pow_le_pow_right (by norm_num) (by omega)
      omega
    have hne : ∀ j, P.ceilLog (2 ^ j) = j → exactCeilLog2 (max w h + 1) ≠ j := by
      intro j hj heq
      have h1 : max w h + 1 = 2 ^ j := by
        rw [← heq]
        exact hpow
      have h2 : P.ceilLog (2 ^ j) = j + 1 := by rw [← h1, hov, heq]
      omega
    have h30 := hne 30 e30
    exact tileSize_closed_overshoot P w h _ hpow (by omega) hov (hne 8 e8) (hne 9 e9)
      (hne 10 e10)

/-- The doubles of `ieeePlatform` are adequate. -/
theorem ieee_adequate : DoublesAdequate ieeePlatform.ceilLog := by
  refine ⟨?_, by decide, by decide, by decide, by decide⟩
  intro x _ _
  show ieeeCeilLog x = _ ∨ _ ∧ ieeeCeilLog x = _
  unfold ieeeCeilLog
  split_ifs with hx
  · exact Or.inr ⟨hx.1, rfl⟩
  · exact Or.inl rfl

theorem least_pow_two (m k : Nat) (h : 2 ^ k ≤ m) : ∀ j, m < 2 ^ j → 2 ^ (k + 1) ≤ 2 ^ j := by
  intro j hj
  apply Nat.pow_le_pow_right (by norm_num)
  by_contra hlt
  have : 2 ^ j ≤ 2 ^ k := Nat.pow_le_pow_right (by norm_num) (by omega)
  omega

/-! ### Lemmas on the state machine -/

section StateMachineLemmas

variable {Screen Rect Dbl : Type}

theorem coverTasks_append (a b : List (Call Screen Rect Dbl)) :
    coverTasks (a ++ b) = coverTasks a ++ coverTasks b := by
  induction a with
  | nil => rfl
  | cons c cs ih => cases c <;> simp [coverTasks, ih]

theorem lockBalance_append (a b : List (Call Screen Rect Dbl)) :
    lockBalance (a ++ b) = lockBalance a + lockBalance b := by
  induction a with
  | nil => simp [lockBalance]
  | cons c cs ih => cases c <;> simp [lockBalance, ih] <;> ring

theorem run_append (X : Externals Screen Rect Dbl) (p : Policy Rect)
    (as bs : List (Event Screen Rect Dbl)) :
    run X p (as ++ bs) =
      ((run X (run X p as).1 bs).1, (run X p as).2 ++ (run X (run X p as).1 bs).2) := by
  induction as generalizing p with
  | nil => simp [run]
  | cons e es ih => simp [run, ih]

theorem drawFrame_isNavigating (X : Externals Screen Rect Dbl) (p : Policy Rect) (s : Screen)
    (c : ScreenCoverage) : (DrawFrame X p s c).1.m_IsNavigating = p.m_IsNavigating := by
  unfold DrawFrame
  simp only []
  split
  · split <;> rfl
  · rfl

theorem drawFrame_flags (X : Externals Screen Rect Dbl) (p : Policy Rect) (s : Screen)
    (c : ScreenCoverage) :
    (DrawFrame X p s c).1.m_DoRecreateCoverage = false ∧
      (DrawFrame X p s c).1.base.m_doForceUpdate = false := by
  unfold DrawFrame
  simp only []
  split
  · split <;> exact ⟨rfl, rfl⟩
  · exact ⟨rfl, rfl⟩

theorem drawFrame_coverTasks (X : Externals Screen Rect Dbl) (p : Policy Rect) (s : Screen)
    (c : ScreenCoverage) :
    coverTasks (DrawFrame X p s c).2 =
      if p.m_IsNavigating then []
      else [(s, p.m_DoRecreateCoverage ||
              (p.base.m_doForceUpdate && X.IsIntersect p.base.m_invalidRect (X.GlobalRect s)))] := by
  unfold DrawFrame
  simp only [coverTasks_append]
  cases p.hasQueuedRenderer <;> cases p.base.m_doForceUpdate <;> cases p.m_IsNavigating <;>
    simp [coverTasks]

theorem drawFrame_lockBalance (X : Externals Screen Rect Dbl) (p : Policy Rect) (s : Screen)
    (c : ScreenCoverage) : lockBalance (DrawFrame X p s c).2 = 1 := by
  unfold DrawFrame
  simp only [lockBalance_append]
  cases p.hasQueuedRenderer <;> cases p.base.m_doForceUpdate <;> cases p.m_IsNavigating <;>
    simp [lockBalance]

theorem step_isNavigating (X : Externals Screen Rect Dbl) (p : Policy Rect)
    (ev : Event Screen Rect Dbl) :
    (step X p ev).1.m_IsNavigating =
      if ev.isStart then true else if ev.isStop then false else p.m_IsNavigating := by
  cases ev <;>
    simp [step, Event.isStart, Event.isStop, BeginFrame, EndFrame, StartScale, StartDrag,
      StartRotate, StopScale, StopDrag, StopRotate, StartNavigation, StopNavigation,
      SetForceUpdate, SetInvalidRect, drawFrame_isNavigating]

theorem run_isNavigating (X : Externals Screen Rect Dbl) (p : Policy Rect)
    (evs : List (Event Screen Rect Dbl)) :
    (run X p evs).1.m_IsNavigating = navigatingAfter p.m_IsNavigating evs := by
  induction evs generalizing p with
  | nil => rfl
  | cons e es ih => simp only [run, navigatingAfter, ih, step_isNavigating]

theorem step_lockBalance (X : Externals Screen Rect Dbl) (p : Policy Rect)
    (ev : Event Screen Rect Dbl) :
    lockBalance (step X p ev).2 = drawsMinusEnds [ev] := by
  cases ev <;>
    simp [step, BeginFrame, EndFrame, StartScale, StartDrag, StartRotate, StopScale, StopDrag,
      StopRotate, StartNavigation, StopNavigation, drawFrame_lockBalance, drawsMinusEnds,
      lockBalance] <;>
    cases p.hasQueuedRenderer <;> simp [lockBalance]

theorem run_lockBalance (X : Externals Screen Rect Dbl) (p : Policy Rect)
    (evs : List (Event Screen Rect Dbl)) :
    lockBalance (run X p evs).2 = drawsMinusEnds evs := by
  induction evs generalizing p with
  | nil => rfl
  | cons e es ih =>
    simp only [run, lockBalance_append, ih, step_lockBalance]
    cases e <;> simp [drawsMinusEnds]

theorem run_frame_only (X : Externals Screen Rect Dbl) (p : Policy Rect)
    (mid : List (Event Screen Rect Dbl))
    (hmid : ∀ e ∈ mid, e = Event.BeginFrame ∨ e = Event.EndFrame) :
    (run X p mid).1 = p ∧ coverTasks (run X p mid).2 = [] := by
  induction mid generalizing p with
  | nil => exact ⟨rfl, rfl⟩
  | cons e es ih =>
    have hes : ∀ e ∈ es, e = Event.BeginFrame ∨ e = Event.EndFrame :=
      fun x hx => hmid x (List.mem_cons_of_mem _ hx)
    rcases hmid e (List.mem_cons_self _ _) with h | h
    · subst h
      have hs : (step X p Event.BeginFrame).1 = p := rfl
      simp only [run, hs, coverTasks_append, ih p hes]
      cases hq : p.hasQueuedRenderer <;> simp [step, BeginFrame, hq, coverTasks]
    · subst h
      have hs : (step X p Event.EndFrame).1 = p := rfl
      simp only [run, hs, coverTasks_append, ih p hes]
      cases hq : p.hasQueuedRenderer <;> simp [step, EndFrame, hq, coverTasks]

theorem stop_state (X : Externals Screen Rect Dbl) (p : Policy Rect)
    (ev : Event Screen Rect Dbl) (hstop : ev.isStop = true) :
    (step X p ev).1.m_IsNavigating = false ∧ (step X p ev).1.m_DoRecreateCoverage = true := by
  cases ev <;> simp [Event.isStop] at hstop <;>
    simp [step, StopScale, StopDrag, StopRotate, StopNavigation]

end StateMachineLemmas

/-! ## The claims -/

/-- C1: for every screen width and height, whatever the doubles of the
platform compute and whatever value it gives to an out-of-range
`static_cast<int>`, `CalculateTileSize` returns a value between 128 and
1024. -/
theorem C1_tileSize_in_range (P : Platform) (screenWidth screenHeight : Nat) :
    128 ≤ CalculateTileSize P screenWidth screenHeight ∧
      CalculateTileSize P screenWidth screenHeight ≤ 1024 := by
  unfold CalculateTileSize
  simp only []
  omega

/-- C2: on a platform with adequate doubles, when the larger dimension is
below `2 ^ 30` and `c` is the smallest power of two strictly greater than it,
`CalculateTileSize` returns `clamp (chosen / 2) 128 1024`, where `chosen` is
`c` when the larger dimension is below 1024 or `c` is strictly nearer than
`c / 2`, and `c / 2` otherwise. -/
theorem C2_tileSize_formula (P : Platform) (w h c k : Nat) (hD : DoublesAdequate P.ceilLog)
    (hm : max w h < 2 ^ 30) (hc : c = 2 ^ k) (hgt : max w h < c)
    (hleast : ∀ j, max w h < 2 ^ j → c ≤ 2 ^ j) :
    CalculateTileSize P w h =
      clamp ((if max w h < 1024 ∨ c - max w h < max w h - c / 2 then c else c / 2) / 2)
        128 1024 := by
  have hce := ceiled_unique exactPlatform (max w h) c k hm rfl hc hgt hleast
  have hspec : CalculateTileSize exactPlatform w h =
      clamp ((if max w h < 1024 ∨ c - max w h < max w h - c / 2 then c else c / 2) / 2)
        128 1024 := by
    unfold CalculateTileSize clamp
    simp only []
    rw [res_of_exact exactPlatform (max w h) hm rfl, hce]
  rw [← hspec, tileSize_closed P w h hD hm, tileSize_closed_exact exactPlatform w h hm rfl]

/-- The instances of C2 given in the specification, on IEEE doubles:
2000 x 2000 gives 1024, 100 x 100 gives 128, 1500 x 1500 gives 512 and 0 x 0
gives 128; and the instance at `2 ^ 29 - 1`, where the doubles make the local
`ceiledScreenSize` `2 ^ 30`, not the least power of two `2 ^ 29`, and the
returned value is the one of the formula all the same. -/
theorem C2_tileSize_formula_witness :
    (DoublesAdequate ieeePlatform.ceilLog ∧ max 2000 2000 < 2 ^ 30 ∧ 2048 = 2 ^ 11 ∧
        max 2000 2000 < 2048 ∧ ∀ j, max 2000 2000 < 2 ^ j → 2048 ≤ 2 ^ j) ∧
      CalculateTileSize ieeePlatform 2000 2000 = 1024 ∧
      CalculateTileSize ieeePlatform 100 100 = 128 ∧
      CalculateTileSize ieeePlatform 1500 1500 = 512 ∧
      CalculateTileSize ieeePlatform 0 0 = 128 ∧
      ceiledScreenSize ieeePlatform (2 ^ 29 - 1) = 2 ^ 30 ∧
      flooredScreenSize ieeePlatform (2 ^ 29 - 1) = 2 ^ 29 ∧
      resScreenSize ieeePlatform (2 ^ 29 - 1) = 2 ^ 30 ∧
      CalculateTileSize ieeePlatform (2 ^ 29 - 1) 0 = 1024 := by
  have l2000 : ∀ j, max 2000 2000 < 2 ^ j → 2048 ≤ 2 ^ j :=
    least_pow_two (max 2000 2000) 10 (by norm_num)
  have l100 : ∀ j, max 100 100 < 2 ^ j → 128 ≤ 2 ^ j :=
    least_pow_two (max 100 100) 6 (by norm_num)
  have l1500 : ∀ j, max 1500 1500 < 2 ^ j → 2048 ≤ 2 ^ j :=
    least_pow_two (max 1500 1500) 10 (by norm_num)
  have l0 : ∀ j, max 0 0 < 2 ^ j → 1 ≤ 2 ^ j := fun j _ => Nat.one_le_two_pow
  have lbig : ∀ j, max (2 ^ 29 - 1) 0 < 2 ^ j → 2 ^ 29 ≤ 2 ^ j :=
    least_pow_two (max (2 ^ 29 - 1) 0) 28 (by norm_num)
  refine ⟨⟨ieee_adequate, by norm_num, by norm_num, by norm_num, l2000⟩, ?_, ?_, ?_, ?_,
    by decide, by decide, by decide, ?_⟩
  · exact (C2_tileSize_formula ieeePlatform 2000 2000 2048 11 ieee_adequate (by norm_num)
      (by norm_num) (by norm_num) l2000).trans (by decide)
  · exact (C2_tileSize_formula ieeePlatform 100 100 128 7 ieee_adequate (by norm_num)
      (by norm_num) (by norm_num) l100).trans (by decide)
  · exact (C2_tileSize_formula ieeePlatform 1500 1500 2048 11 ieee_adequate (by norm_num)
      (by norm_num) (by norm_num) l1500).trans (by decide)
  · exact (C2_tileSize_formula ieeePlatform 0 0 1 0 ieee_adequate (by norm_num) (by norm_num)
      (by norm_num) l0).trans (by decide)
  · exact (C2_tileSize_formula ieeePlatform (2 ^ 29 - 1) 0 (2 ^ 29) 29 ieee_adequate
      (by norm_num) rfl (by norm_num) lbig).trans (by decide)

/-- C3, as the claim states it, fails: at 1536 x 1536 the larger dimension is
at least 1024 and exactly midway between `flooredScreenSize = 1024` and
`ceiledScreenSize = 2048`, yet `CalculateTileSize` returns 512, not
`clamp (2048 / 2) 128 1024 = 1024`. -/
theorem C3_counterexample :
    1024 ≤ max 1536 1536 ∧
      ieeePlatform.ceilLog (max 1536 1536 + 1) = 11 ∧
      ceiledScreenSize ieeePlatform (max 1536 1536) = 2048 ∧
      flooredScreenSize ieeePlatform (max 1536 1536) = 1024 ∧
      ceiledScreenSize ieeePlatform (max 1536 1536) - max 1536 1536 =
        max 1536 1536 - flooredScreenSize ieeePlatform (max 1536 1536) ∧
      CalculateTileSize ieeePlatform 1536 1536 = 512 ∧
      clamp (ceiledScreenSize ieeePlatform (max 1536 1536) / 2) 128 1024 = 1024 ∧
      CalculateTileSize ieeePlatform 1536 1536 ≠
        clamp (ceiledScreenSize ieeePlatform (max 1536 1536) / 2) 128 1024 := by
  decide

/-- C3, amended: on every platform, when the larger dimension is a `size_t`
of at least 1024 that lies exactly midway between the locals
`flooredScreenSize` and `ceiledScreenSize`, the strict comparison selects
`flooredScreenSize`, and `CalculateTileSize` returns
`clamp (flooredScreenSize / 2) 128 1024`. -/
theorem C3_tie_favors_floored (P : Platform) (w h : Nat) (hge : 1024 ≤ max w h)
    (hsz : max w h < 2 ^ 64)
    (htie : ceiledScreenSize P (max w h) - max w h =
      max w h - flooredScreenSize P (max w h)) :
    resScreenSize P (max w h) = flooredScreenSize P (max w h) ∧
      CalculateTileSize P w h = clamp (flooredScreenSize P (max w h) / 2) 128 1024 := by
  have hres : resScreenSize P (max w h) = flooredScreenSize P (max w h) := by
    have hc := ceiled_lt_mod P (max w h)
    unfold resScreenSize
    unfold flooredScreenSize at htie ⊢
    generalize ceiledScreenSize P (max w h) = c at htie hc ⊢
    generalize max w h = m at htie hge hsz ⊢
    have e1 : subSizeT c m = c - m := by
      unfold subSizeT SIZE_T_MOD
      omega
    have e2 : subSizeT m (c / 2) = m - c / 2 := by
      unfold subSizeT SIZE_T_MOD
      omega
    rw [if_neg (by omega), e1, e2, if_neg (by omega)]
  refine ⟨hres, ?_⟩
  unfold CalculateTileSize clamp
  simp only []
  rw [hres]

/-- The instance of the amended C3 at 1536 x 1536: the tile size is 512. -/
theorem C3_tie_favors_floored_witness :
    (1024 ≤ max 1536 1536 ∧ max 1536 1536 < 2 ^ 64 ∧
        ceiledScreenSize ieeePlatform (max 1536 1536) - max 1536 1536 =
          max 1536 1536 - flooredScreenSize ieeePlatform (max 1536 1536)) ∧
      resScreenSize ieeePlatform (max 1536 1536) = 1024 ∧
      CalculateTileSize ieeePlatform 1536 1536 = 512 := by
  have key := C3_tie_favors_floored ieeePlatform 1536 1536 (by decide) (by decide) (by decide)
  refine ⟨by decide, ?_, ?_⟩
  · exact key.1.trans (by decide)
  · exact key.2.trans (by decide)

/-- C10: on a platform with adequate doubles, when the larger dimension is
below `2 ^ 30`, `CalculateTileSize` equals the closed form of the larger
dimension: 128 up to 255, 256 up to 511, 512 up to 1536 and 1024 from 1537
on; so it is one of 128, 256, 512, 1024, depends only on the larger dimension
and is non-decreasing in it. -/
theorem C10_tileSize_closed_form (P : Platform) (w h : Nat) (hD : DoublesAdequate P.ceilLog)
    (hm : max w h < 2 ^ 30) :
    CalculateTileSize P w h =
        (if max w h ≤ 255 then 128 else if max w h ≤ 511 then 256
          else if max w h ≤ 1536 then 512 else 1024) ∧
      (CalculateTileSize P w h = 128 ∨ CalculateTileSize P w h = 256 ∨
        CalculateTileSize P w h = 512 ∨ CalculateTileSize P w h = 1024) ∧
      (∀ (P2 : Platform) (w2 h2 : Nat), DoublesAdequate P2.ceilLog → max w2 h2 = max w h →
        CalculateTileSize P2 w2 h2 = CalculateTileSize P w h) ∧
      (∀ (P2 : Platform) (w2 h2 : Nat), DoublesAdequate P2.ceilLog → max w h ≤ max w2 h2 →
        max w2 h2 < 2 ^ 30 → CalculateTileSize P w h ≤ CalculateTileSize P2 w2 h2) := by
  have hcf := tileSize_closed P w h hD hm
  refine ⟨hcf, ?_, ?_, ?_⟩
  · rw [hcf]
    unfold tileSizeOfMaxDim
    split_ifs <;> simp
  · intro P2 w2 h2 hD2 heq
    rw [hcf, tileSize_closed P2 w2 h2 hD2 (by omega), heq]
  · intro P2 w2 h2 hD2 hle hlt
    rw [hcf, tileSize_closed P2 w2 h2 hD2 hlt]
    unfold tileSizeOfMaxDim
    split_ifs <;> omega

/-- The instances of C10 at the boundaries of the closed form and at
`2 ^ 29 - 1`, on IEEE doubles. -/
theorem C10_tileSize_closed_form_witness :
    (DoublesAdequate ieeePlatform.ceilLog ∧ max 1536 100 < 2 ^ 30) ∧
      CalculateTileSize ieeePlatform 1536 100 = 512 ∧
      CalculateTileSize ieeePlatform 7 1537 = 1024 ∧
      CalculateTileSize ieeePlatform 255 255 = 128 ∧
      CalculateTileSize ieeePlatform 256 0 = 256 ∧
      CalculateTileSize ieeePlatform 511 512 = 512 ∧
      CalculateTileSize ieeePlatform 1023 1023 = 512 ∧
      CalculateTileSize ieeePlatform (2 ^ 29 - 1) (2 ^ 29 - 1) = 1024 :=
  ⟨⟨ieee_adequate, by decide⟩,
    (C10_tileSize_closed_form ieeePlatform 1536 100 ieee_adequate (by decide)).1.trans
      (by decide),
    (C10_tileSize_closed_form ieeePlatform 7 1537 ieee_adequate (by decide)).1.trans
      (by decide),
    (C10_tileSize_closed_form ieeePlatform 255 255 ieee_adequate (by decide)).1.trans
      (by decide),
    (C10_tileSize_closed_form ieeePlatform 256 0 ieee_adequate (by decide)).1.trans
      (by decide),
    (C10_tileSize_closed_form ieeePlatform 511 512 ieee_adequate (by decide)).1.trans
      (by decide),
    (C10_tileSize_closed_form ieeePlatform 1023 1023 ieee_adequate (by decide)).1.trans
      (by decide),
    (C10_tileSize_closed_form ieeePlatform (2 ^ 29 - 1) (2 ^ 29 - 1) ieee_adequate
      (by decide)).1.trans (by decide)⟩

section Claims

variable {Screen Rect Dbl : Type}

/-- C4: after any sequence of events from a freshly constructed policy, if
`m_IsNavigating` is set then the last navigation event was a `Start*` with no
`Stop*` after it, and a `DrawFrame` executed in that state makes no
`AddCoverScreenTask` call. -/
theorem C4_no_cover_task_while_navigating (X : Externals Screen Rect Dbl)
    (P : Platform) (screenWidth screenHeight : Nat) (doUseQueuedRenderer : Bool)
    (base : RenderPolicy Rect)
    (evs : List (Event Screen Rect Dbl)) (s : Screen) (curCvg : ScreenCoverage)
    (hnav : (run X (construct P screenWidth screenHeight doUseQueuedRenderer base)
      evs).1.m_IsNavigating = true) :
    navigatingAfter false evs = true ∧
      (∀ s2 doForce, Call.AddCoverScreenTask s2 doForce ∉
        (DrawFrame X (run X (construct P screenWidth screenHeight doUseQueuedRenderer base)
          evs).1 s curCvg).2) ∧
      coverTasks (DrawFrame X (run X (construct P screenWidth screenHeight
        doUseQueuedRenderer base) evs).1 s curCvg).2 = [] := by
  have hrun := run_isNavigating X (construct P screenWidth screenHeight doUseQueuedRenderer base)
    evs
  refine ⟨?_, ?_, ?_⟩
  · rw [← hnav, hrun]
    rfl
  · intro s2 doForce
    generalize (run X (construct P screenWidth screenHeight doUseQueuedRenderer base) evs).1 = p
      at hnav
    unfold DrawFrame
    simp only [hnav]
    cases p.hasQueuedRenderer <;> cases p.base.m_doForceUpdate <;> simp
  · rw [drawFrame_coverTasks, hnav]
    rfl

/-- The instance of C4 after `StartDrag` and `BeginFrame` on a fresh policy:
the `DrawFrame` makes only the drawing calls. -/
theorem C4_no_cover_task_while_navigating_witness :
    (run intervalExternals freshPolicy [Event.StartDrag, Event.BeginFrame]).1.m_IsNavigating
        = true ∧
      navigatingAfter false
        ([Event.StartDrag, Event.BeginFrame] : List (Event (Nat × Nat) (Nat × Nat) Nat))
          = true ∧
      coverTasks (DrawFrame intervalExternals
        (run intervalExternals freshPolicy [Event.StartDrag, Event.BeginFrame]).1
        (0, 10) sampleCoverage).2 = [] ∧
      (DrawFrame intervalExternals
        (run intervalExternals freshPolicy [Event.StartDrag, Event.BeginFrame]).1
        (0, 10) sampleCoverage).2 =
          [Call.DrawerBeginFrame, Call.ScreenClear, Call.MutexLock, Call.CoverageDraw (0, 10),
            Call.DrawerEndFrame] :=
  ⟨rfl,
    (C4_no_cover_task_while_navigating intervalExternals ieeePlatform 2000 2000 false
      { m_doForceUpdate := false, m_invalidRect := (0, 0) }
      [Event.StartDrag, Event.BeginFrame] (0, 10) sampleCoverage rfl).1,
    (C4_no_cover_task_while_navigating intervalExternals ieeePlatform 2000 2000 false
      { m_doForceUpdate := false, m_invalidRect := (0, 0) }
      [Event.StartDrag, Event.BeginFrame] (0, 10) sampleCoverage rfl).2.2,
    rfl⟩

/-- C5: from every policy state, after a `Stop*` event the next `DrawFrame`
enqueues exactly one cover-screen task, for its view and with recreate flag
`true`; the following `DrawFrame`, with only `BeginFrame` / `EndFrame` events
in between, enqueues exactly one cover-screen task with recreate flag
`false`. -/
theorem C5_recreate_once_after_stop (X : Externals Screen Rect Dbl) (p : Policy Rect)
    (ev : Event Screen Rect Dbl) (hstop : ev.isStop = true) (s1 s2 : Screen)
    (c1 c2 : ScreenCoverage) (mid : List (Event Screen Rect Dbl))
    (hmid : ∀ e ∈ mid, e = Event.BeginFrame ∨ e = Event.EndFrame) :
    coverTasks (DrawFrame X (step X p ev).1 s1 c1).2 = [(s1, true)] ∧
      coverTasks (DrawFrame X (DrawFrame X (step X p ev).1 s1 c1).1 s2 c2).2 = [(s2, false)] ∧
      coverTasks (run X (DrawFrame X (step X p ev).1 s1 c1).1
        (mid ++ [Event.DrawFrame s2 c2])).2 = [(s2, false)] := by
  obtain ⟨hn, hr⟩ := stop_state X p ev hstop
  obtain ⟨hf1, hf2⟩ := drawFrame_flags X (step X p ev).1 s1 c1
  have hn2 := drawFrame_isNavigating X (step X p ev).1 s1 c1
  have h2 : coverTasks (DrawFrame X (DrawFrame X (step X p ev).1 s1 c1).1 s2 c2).2 =
      [(s2, false)] := by
    rw [drawFrame_coverTasks, hn2, hn, hf1, hf2]
    rfl
  refine ⟨?_, h2, ?_⟩
  · rw [drawFrame_coverTasks, hn, hr]
    rfl
  · obtain ⟨hm1, hm2⟩ := run_frame_only X (DrawFrame X (step X p ev).1 s1 c1).1 mid hmid
    have hlast : ∀ q : Policy Rect, run X q [Event.DrawFrame s2 c2] =
        ((DrawFrame X q s2 c2).1, (DrawFrame X q s2 c2).2 ++ []) := fun _ => rfl
    rw [run_append, hm1]
    simp only [coverTasks_append, hm2, hlast, List.append_nil, List.nil_append]
    exact h2

/-- The instance of C5 for `StopDrag` on a fresh policy, with `EndFrame` and
`BeginFrame` between the two `DrawFrame`s. -/
theorem C5_recreate_once_after_stop_witness :
    (Event.StopDrag : Event (Nat × Nat) (Nat × Nat) Nat).isStop = true ∧
      (∀ e ∈ ([Event.EndFrame, Event.BeginFrame] : List (Event (Nat × Nat) (Nat × Nat) Nat)),
        e = Event.BeginFrame ∨ e = Event.EndFrame) ∧
      coverTasks (DrawFrame intervalExternals
        (step intervalExternals freshPolicy Event.StopDrag).1 (0, 10) sampleCoverage).2
          = [((0, 10), true)] ∧
      coverTasks (run intervalExternals
        (DrawFrame intervalExternals (step intervalExternals freshPolicy Event.StopDrag).1
          (0, 10) sampleCoverage).1
        ([Event.EndFrame, Event.BeginFrame] ++ [Event.DrawFrame (3, 7) sampleCoverage])).2
          = [((3, 7), false)] :=
  ⟨rfl, by decide,
    (C5_recreate_once_after_stop intervalExternals freshPolicy Event.StopDrag rfl (0, 10) (3, 7)
      sampleCoverage sampleCoverage [Event.EndFrame, Event.BeginFrame] (by decide)).1,
    (C5_recreate_once_after_stop intervalExternals freshPolicy Event.StopDrag rfl (0, 10) (3, 7)
      sampleCoverage sampleCoverage [Event.EndFrame, Event.BeginFrame] (by decide)).2.2⟩

/-- C6: a `DrawFrame` executed while `m_IsNavigating` is false enqueues
exactly one cover-screen task, for the supplied view, whose recreate flag is
`m_DoRecreateCoverage || (doForceUpdate && doIntersectInvalidRect)` on the
values before the call; when `m_DoRecreateCoverage` is unset and the invalid
rectangle does not intersect the view, the flag is `false` even under a
forced update. -/
theorem C6_cover_task_when_idle (X : Externals Screen Rect Dbl) (p : Policy Rect) (s : Screen)
    (curCvg : ScreenCoverage) (hidle : p.m_IsNavigating = false) :
    coverTasks (DrawFrame X p s curCvg).2 =
        [(s, p.m_DoRecreateCoverage ||
          (p.base.m_doForceUpdate && X.IsIntersect p.base.m_invalidRect (X.GlobalRect s)))] ∧
      (p.m_DoRecreateCoverage = false →
        X.IsIntersect p.base.m_invalidRect (X.GlobalRect s) = false →
        coverTasks (DrawFrame X p s curCvg).2 = [(s, false)]) := by
  have h : coverTasks (DrawFrame X p s curCvg).2 =
      [(s, p.m_DoRecreateCoverage ||
        (p.base.m_doForceUpdate && X.IsIntersect p.base.m_invalidRect (X.GlobalRect s)))] := by
    rw [drawFrame_coverTasks, hidle]
    rfl
  refine ⟨h, ?_⟩
  intro hr hi
  rw [h, hr, hi]
  simp

/-- The instances of C6 on a fresh policy after `SetForceUpdate(true)` with
invalid rectangle `(20, 30)`: the view `(0, 10)` does not intersect it and
gets recreate flag `false`, the view `(25, 40)` intersects it and gets
`true`. -/
theorem C6_cover_task_when_idle_witness :
    (SetInvalidRect (SetForceUpdate freshPolicy true) (20, 30)).m_IsNavigating = false ∧
      coverTasks (DrawFrame intervalExternals
        (SetInvalidRect (SetForceUpdate freshPolicy true) (20, 30)) (0, 10) sampleCoverage).2
          = [((0, 10), false)] ∧
      coverTasks (DrawFrame intervalExternals
        (SetInvalidRect (SetForceUpdate freshPolicy true) (20, 30)) (25, 40) sampleCoverage).2
          = [((25, 40), true)] :=
  ⟨rfl,
    (C6_cover_task_when_idle intervalExternals
      (SetInvalidRect (SetForceUpdate freshPolicy true) (20, 30)) (0, 10) sampleCoverage rfl).2
        rfl rfl,
    (C6_cover_task_when_idle intervalExternals
      (SetInvalidRect (SetForceUpdate freshPolicy true) (20, 30)) (25, 40) sampleCoverage rfl).1⟩

/-- C7: the calls of every `DrawFrame` end with `MutexLock`, the drawing of
the current coverage and the `endFrame` of the drawer, in this order, with no
lock, unlock, coverage drawing or `endFrame` before them, so `DrawFrame`
returns with one lock not released; the calls of the following `EndFrame`
start with `MutexUnlock` and hold no other lock or unlock; over a
`BeginFrame`, `DrawFrame`, `EndFrame` frame locks and unlocks balance. -/
theorem C7_mutex_held_from_draw_to_end (X : Externals Screen Rect Dbl) (p : Policy Rect)
    (s : Screen) (curCvg : ScreenCoverage) :
    (∃ pre, (DrawFrame X p s curCvg).2 =
        pre ++ [Call.MutexLock, Call.CoverageDraw s, Call.DrawerEndFrame] ∧
      Call.MutexLock ∉ pre ∧ Call.MutexUnlock ∉ pre ∧ Call.DrawerEndFrame ∉ pre ∧
      ∀ s2, Call.CoverageDraw s2 ∉ pre) ∧
      lockBalance (DrawFrame X p s curCvg).2 = 1 ∧
      (∃ post, (EndFrame (DrawFrame X p s curCvg).1 :
          Policy Rect × List (Call Screen Rect Dbl)).2 = Call.MutexUnlock :: post ∧
        Call.MutexLock ∉ post ∧ Call.MutexUnlock ∉ post) ∧
      lockBalance (EndFrame (DrawFrame X p s curCvg).1 :
        Policy Rect × List (Call Screen Rect Dbl)).2 = -1 ∧
      lockBalance (BeginFrame p : Policy Rect × List (Call Screen Rect Dbl)).2 = 0 ∧
      lockBalance (run X p [Event.BeginFrame, Event.DrawFrame s curCvg, Event.EndFrame]).2
        = 0 := by
  refine ⟨?_, drawFrame_lockBalance X p s curCvg, ?_, ?_, ?_, ?_⟩
  · refine ⟨((if p.hasQueuedRenderer then [Call.QueuedDrawFrame, Call.UpdatePoolState]
        else []) ++
      (if p.base.m_doForceUpdate then
        [Call.InvalidateTiles p.base.m_invalidRect (X.GetUpperWorldScale + 1)] else []) ++
      (if !p.m_IsNavigating then
        [Call.AddCoverScreenTask s (p.m_DoRecreateCoverage ||
          (p.base.m_doForceUpdate && X.IsIntersect p.base.m_invalidRect (X.GlobalRect s)))]
        else [])) ++ [Call.DrawerBeginFrame, Call.ScreenClear], ?_, ?_, ?_, ?_, ?_⟩
    · unfold DrawFrame
      simp
    all_goals
      cases p.hasQueuedRenderer <;> cases p.base.m_doForceUpdate <;>
        cases p.m_IsNavigating <;> simp
  · refine ⟨if (DrawFrame X p s curCvg).1.hasQueuedRenderer then [Call.QueuedEndFrame] else [],
      ?_, ?_, ?_⟩
    · simp [EndFrame]
    · split <;> simp
    · split <;> simp
  · have := step_lockBalance X (DrawFrame X p s curCvg).1 Event.EndFrame
    simpa [step, drawsMinusEnds] using this
  · have := step_lockBalance X p Event.BeginFrame
    simpa [step, drawsMinusEnds] using this
  · rw [run_lockBalance]
    simp [drawsMinusEnds]

/-- C8, as the claim states it, fails: on a freshly constructed policy,
`EndFrame` with no preceding `DrawFrame` does not fail but calls
`MutexUnlock` (one more unlock than locks); two `DrawFrame`s with no
`EndFrame` between them lock twice; and a `DrawFrame` that follows a
`DrawFrame` and a `SetForceUpdate(true)` with no `EndFrame` clears the
force-update flag. -/
theorem C8_counterexample :
    (step intervalExternals freshPolicy Event.EndFrame).2 = [Call.MutexUnlock] ∧
      lockBalance (run intervalExternals freshPolicy [Event.EndFrame]).2 = -1 ∧
      lockBalance (run intervalExternals freshPolicy
        [Event.DrawFrame (0, 10) sampleCoverage, Event.DrawFrame (0, 10) sampleCoverage]).2
          = 2 ∧
      (run intervalExternals freshPolicy
        [Event.DrawFrame (0, 10) sampleCoverage, Event.SetForceUpdate true]).1.base.m_doForceUpdate
          = true ∧
      (run intervalExternals freshPolicy
        [Event.DrawFrame (0, 10) sampleCoverage, Event.SetForceUpdate true,
          Event.DrawFrame (0, 10) sampleCoverage]).1.base.m_doForceUpdate = false := by
  refine ⟨rfl, rfl, rfl, rfl, rfl⟩

/-- C8, amended: the frame phases check no call order and have no failure
path: for every sequence of events, in any order, the run returns a state
and its locks minus unlocks are the number of `DrawFrame` events minus the
number of `EndFrame` events; every `EndFrame` makes the `MutexUnlock` call
and every `DrawFrame` leaves both one-shot flags cleared, whatever came
before. -/
theorem C8_no_call_order_check (X : Externals Screen Rect Dbl) (p : Policy Rect)
    (evs : List (Event Screen Rect Dbl)) (s : Screen) (curCvg : ScreenCoverage) :
    lockBalance (run X p evs).2 = drawsMinusEnds evs ∧
      Call.MutexUnlock ∈ (step X (run X p evs).1 Event.EndFrame).2 ∧
      Call.MutexLock ∈ (step X (run X p evs).1 (Event.DrawFrame s curCvg)).2 ∧
      (step X (run X p evs).1 (Event.DrawFrame s curCvg)).1.m_DoRecreateCoverage = false ∧
      (step X (run X p evs).1 (Event.DrawFrame s curCvg)).1.base.m_doForceUpdate = false := by
  refine ⟨run_lockBalance X p evs, ?_, ?_, ?_, ?_⟩
  · simp [step, EndFrame]
  · simp [step, DrawFrame]
  · exact (drawFrame_flags X _ s curCvg).1
  · exact (drawFrame_flags X _ s curCvg).2

/-- C9: after every `DrawFrame`, `GetDrawScale` returns the draw scale of
the current coverage; when the coverage is not empty of drawing or is not
partial, `IsEmptyModel` becomes "empty drawing and no data at the centre",
and the country name becomes the centre region name when that flag is true
and is unchanged when it is false; when the coverage is empty of drawing and
partial, `IsEmptyModel` and the country name are unchanged. -/
theorem C9_draw_scale_and_empty_model (X : Externals Screen Rect Dbl) (p : Policy Rect)
    (s s2 : Screen) (curCvg : ScreenCoverage) :
    GetDrawScale (DrawFrame X p s curCvg).1 s2 = curCvg.GetDrawScale ∧
      ((curCvg.IsEmptyDrawingCoverage = false ∨ curCvg.IsPartialCoverage = false) →
        IsEmptyModel (DrawFrame X p s curCvg).1 =
            (curCvg.IsEmptyDrawingCoverage && curCvg.IsEmptyModelAtCoverageCenter) ∧
          (IsEmptyModel (DrawFrame X p s curCvg).1 = true →
            GetCountryName (DrawFrame X p s curCvg).1 =
              curCvg.GetCountryNameAtCoverageCenter) ∧
          (IsEmptyModel (DrawFrame X p s curCvg).1 = false →
            GetCountryName (DrawFrame X p s curCvg).1 = GetCountryName p)) ∧
      ((curCvg.IsEmptyDrawingCoverage = true ∧ curCvg.IsPartialCoverage = true) →
        IsEmptyModel (DrawFrame X p s curCvg).1 = IsEmptyModel p ∧
          GetCountryName (DrawFrame X p s curCvg).1 = GetCountryName p) := by
  unfold DrawFrame GetDrawScale IsEmptyModel GetCountryName
  cases curCvg.IsEmptyDrawingCoverage <;> cases curCvg.IsPartialCoverage <;>
    cases curCvg.IsEmptyModelAtCoverageCenter <;> simp

/-- The instance of C9 on a fresh policy with a coverage that is empty of
drawing, not partial and without data at the centre. -/
theorem C9_draw_scale_and_empty_model_witness :
    (sampleCoverage.IsEmptyDrawingCoverage = false ∨ sampleCoverage.IsPartialCoverage = false) ∧
      GetDrawScale (DrawFrame intervalExternals freshPolicy (0, 10) sampleCoverage).1 (0, 10)
        = 12 ∧
      IsEmptyModel (DrawFrame intervalExternals freshPolicy (0, 10) sampleCoverage).1 = true ∧
      GetCountryName (DrawFrame intervalExternals freshPolicy (0, 10) sampleCoverage).1
        = "Belarus" :=
  ⟨Or.inr rfl,
    (C9_draw_scale_and_empty_model intervalExternals freshPolicy (0, 10) (0, 10)
      sampleCoverage).1,
    ((C9_draw_scale_and_empty_model intervalExternals freshPolicy (0, 10) (0, 10)
      sampleCoverage).2.1 (Or.inr rfl)).1,
    ((C9_draw_scale_and_empty_model intervalExternals freshPolicy (0, 10) (0, 10)
      sampleCoverage).2.1 (Or.inr rfl)).2.1 rfl⟩

end Claims

end BasicTilingRenderPolicy
